import Mathlib

/-!
Verification of the Luma MVP extraction-normalization-calculation core
(luma-backend/utils/parser.py and luma-backend/utils/calculator.py).

Shallow embedding conventions: Python floats are modelled as exact rationals,
Python dicts as association lists that keep insertion order, Python None and
fallible functions via Option, byte-for-byte string literals from the source
(including the double-encoded literals present in calculator.py).
-/

namespace Luma

/-- Python str.lower restricted to the ASCII and Latin-1 letter ranges
(codepoints 65-90 and 192-222 except 215), the only ranges exercised by the
repository's string tables. -/
def pyLowerChar (c : Char) : Char :=
  if 65 ≤ c.toNat ∧ c.toNat ≤ 90 then Char.ofNat (c.toNat + 32)
  else if 192 ≤ c.toNat ∧ c.toNat ≤ 222 ∧ c.toNat ≠ 215 then Char.ofNat (c.toNat + 32)
  else c

/-- Python str.lower on a whole string. -/
def pyLower (s : String) : String := String.mk (s.data.map pyLowerChar)

/-- Decides whether the second list starts with the first list. -/
def isPrefixList : List Char → List Char → Bool
  | [], _ => true
  | _ :: _, [] => false
  | a :: as, b :: bs => a = b && isPrefixList as bs

/-- Python substring containment (the in operator on str), over char lists:
the needle occurs somewhere in the hay. -/
def containsSub (needle : List Char) : List Char → Bool
  | [] => isPrefixList needle []
  | c :: t => isPrefixList needle (c :: t) || containsSub needle t

/-- Python dict lookup (dict.get with default None) over an association list. -/
def lookupAssoc {α : Type} : List (String × α) → String → Option α
  | [], _ => none
  | p :: rest, k => if p.1 = k then some p.2 else lookupAssoc rest k

/-- Python dict assignment d[k] = v: replaces the value in place when the key
exists (dicts keep the key's original insertion position), else appends. -/
def setAssoc {α : Type} : List (String × α) → String → α → List (String × α)
  | [], k, v => [(k, v)]
  | p :: rest, k, v => if p.1 = k then (k, v) :: rest else p :: setAssoc rest k v

/-- Python key-membership test (k in dict). -/
def hasKey {α : Type} (m : List (String × α)) (k : String) : Bool :=
  (lookupAssoc m k).isSome

/-- Characters removed by Python str.strip() with no argument, restricted to the
ASCII whitespace actually reachable from the pipeline's inputs. -/
def isSpaceChar (c : Char) : Bool :=
  c = ' ' || c = '\t' || c = '\n' || c = '\r' || c = '\x0b' || c = '\x0c'

/-- Python str.strip() over a char list: drop whitespace on both ends. -/
def trimChars (cs : List Char) : List Char :=
  ((cs.dropWhile isSpaceChar).reverse.dropWhile isSpaceChar).reverse

/-- Python str.strip() on a whole string. -/
def pyStrip (s : String) : String := String.mk (trimChars s.data)

/-- Numeric value of a list of ASCII digits, most significant first. -/
def natOfDigits (cs : List Char) : ℕ :=
  cs.foldl (fun n c => 10 * n + (c.toNat - 48)) 0

/-- Python float() applied to a string over the characters 0-9, dot and minus
(the only characters surviving _parse_number's filter): an optional leading
minus, then digits containing at most one dot and at least one digit. -/
def pyFloatChars (cs : List Char) : Option ℚ :=
  let p : Bool × List Char :=
    match cs with
    | '-' :: rest => (true, rest)
    | other => (false, other)
  if p.2.any (fun c => c = '-') then none
  else
    match p.2.splitOn '.' with
    | [ds] =>
      if ds ≠ [] ∧ ds.all Char.isDigit then
        some (mkRat (if p.1 then -(natOfDigits ds : ℤ) else (natOfDigits ds : ℤ)) 1)
      else none
    | [as, bs] =>
      if as ++ bs ≠ [] ∧ (as ++ bs).all Char.isDigit then
        let n : ℤ := natOfDigits as * 10 ^ bs.length + natOfDigits bs
        some (mkRat (if p.1 then -n else n) (10 ^ bs.length))
      else none
    | _ => none

/-- Calendar date produced by the date parsers. -/
structure PDate where
  year : ℕ
  month : ℕ
  day : ℕ
deriving DecidableEq

/-- Gregorian leap-year rule, as implemented by Python's datetime. -/
def isLeapYear (y : ℕ) : Bool := (y % 4 = 0 && y % 100 ≠ 0) || y % 400 = 0

/-- Number of days of a month, as validated by Python's datetime. -/
def daysInMonth (y m : ℕ) : ℕ :=
  if m = 2 then (if isLeapYear y then 29 else 28)
  else if m = 4 ∨ m = 6 ∨ m = 9 ∨ m = 11 then 30
  else 31

/-- Validity check performed by the datetime constructor used by strptime. -/
def validDate (y m d : ℕ) : Bool :=
  1 ≤ y && y ≤ 9999 && 1 ≤ m && m ≤ 12 && 1 ≤ d && d ≤ daysInMonth y m

/-- A run of 1 to maxLen ASCII digits, as strptime numeric field matching
accepts (zero padding optional). -/
def digitField (cs : List Char) (maxLen : ℕ) : Option ℕ :=
  if cs ≠ [] ∧ cs.length ≤ maxLen ∧ cs.all Char.isDigit then some (natOfDigits cs) else none

/-- datetime.strptime against a day-month-year format with the given separator
(%d sep %m sep %Y). -/
def strptimeDMY (cs : List Char) (sep : Char) : Option PDate :=
  match cs.splitOn sep with
  | [dcs, mcs, ycs] =>
    match digitField dcs 2, digitField mcs 2, digitField ycs 4 with
    | some d, some m, some y => if validDate y m d then some ⟨y, m, d⟩ else none
    | _, _, _ => none
  | _ => none

/-- datetime.strptime against the %Y-%m-%d format. -/
def strptimeYMD (cs : List Char) : Option PDate :=
  match cs.splitOn '-' with
  | [ycs, mcs, dcs] =>
    match digitField ycs 4, digitField mcs 2, digitField dcs 2 with
    | some y, some m, some d => if validDate y m d then some ⟨y, m, d⟩ else none
    | _, _, _ => none
  | _ => none

namespace ParserPy

/-- Embedding of parser._parse_number on a string input: strip, drop every dot
(treated as a thousands separator), turn commas into dots, drop every character
that is not an ASCII digit, dot or minus (the re.sub), then apply float();
empty result or any float() failure gives None via the bare except. -/
def _parse_number (value : String) : Option ℚ :=
  let s := trimChars value.data
  let cs := (s.filter (fun c => c ≠ '.')).map (fun c => if c = ',' then '.' else c)
  let cs := cs.filter (fun c => c.isDigit || c = '.' || c = '-')
  if cs = [] then none else pyFloatChars cs

/-- Embedding of parser._parse_date_value on a string input: strip, then try
the formats %d/%m/%Y, %Y-%m-%d, %d-%m-%Y, %d.%m.%Y in order; the first
successful parse wins and none is returned when all fail. (The
isinstance(value, datetime) fast path does not arise for the cell values
modelled here, which are text or numbers.) -/
def _parse_date_value (value : String) : Option PDate :=
  let cs := trimChars value.data
  match strptimeDMY cs '/' with
  | some d => some d
  | none =>
    match strptimeYMD cs with
    | some d => some d
    | none =>
      match strptimeDMY cs '-' with
      | some d => some d
      | none => strptimeDMY cs '.'

/-- parser.COLUMN_SYNONYMS: canonical field name to its ES/EN header synonym
list, rows in the dict's insertion order. -/
def COLUMN_SYNONYMS : List (String × List String) := [
  ("date", ["date", "fecha", "date_invoice", "invoice_date", "fecha_factura"]),
  ("supplier", ["supplier", "proveedor", "vendor", "empresa", "company"]),
  ("category", ["category", "categoria", "tipo", "type", "concept", "concepto"]),
  ("usage", ["usage", "consumo", "consumption", "quantity", "cantidad", "amount"]),
  ("unit", ["unit", "unidad", "units", "uom"]),
  ("cost", ["cost", "coste", "importe", "total", "amount", "precio", "price"]),
  ("invoice_number", ["invoice", "invoice_number", "factura", "numero_factura", "n_factura"]),
  ("notes", ["notes", "observaciones", "comments", "comentarios", "description"])]

/-- The per-header test of parser._map_columns: the header is truthy and its
lowered, stripped form is among the field's synonyms. -/
def headerMatcher (syns : List String) (h : String) : Bool :=
  decide (h ≠ "") && syns.contains (pyStrip (pyLower h))

/-- One iteration of the outer loop of parser._map_columns: find the first
matching header for the field and record it via the dict assignment
column_map[header] = standard_name, or leave the map unchanged. -/
def mapStep (headers : List String) (m : List (String × String))
    (p : String × List String) : List (String × String) :=
  match headers.find? (headerMatcher p.2) with
  | some h => setAssoc m h p.1
  | none => m

/-- Embedding of parser._map_columns: for each canonical field in table order,
scan the headers and record the first matching one; a later field that
matches the same header overwrites that header's entry. -/
def _map_columns (headers : List String) : List (String × String) :=
  COLUMN_SYNONYMS.foldl (mapStep headers) []

/-- Embedding of parser._infer_category(supplier, unit): substring heuristics
over the lowered supplier and unit, falling back to purchased_goods. -/
def _infer_category (supplier unit : String) : String :=
  let s := (pyLower supplier).data
  let u := (pyLower unit).data
  if containsSub "kwh".data u
      || ["endesa", "iberdrola", "naturgy", "eléctrica"].any (fun b => containsSub b.data s) then
    "electricity"
  else if containsSub "m3".data u || containsSub "m³".data u || containsSub "gas".data s then
    "natural_gas"
  else if pyLower unit = "l" || containsSub "litro".data u then
    if containsSub "diesel".data s || containsSub "gasóleo".data s then "diesel" else "petrol"
  else if containsSub "tonne".data u || containsSub "ton".data u || containsSub "km".data u then
    "freight_transport"
  else
    "purchased_goods"

end ParserPy

/-- A spreadsheet/CSV cell value: an empty cell (None), text, or a number
(numeric cells of xlsx; csv.DictReader always yields text). -/
inductive Cell
  | null
  | str (s : String)
  | num (q : ℚ)
deriving DecidableEq

/-- A value stored under a key of the standardized record dict: text fields
hold stripped strings, usage and cost hold a numeric parse result (None when
unparsable), date holds a date parse result (None when unparsable). -/
inductive RVal
  | str (s : String)
  | num (q : Option ℚ)
  | date (d : Option PDate)
deriving DecidableEq

/-- Python str() of a cell, as fed to strip() for text fields; the rendering
of a numeric cell is abstracted as the rational's rendering (not exercised by
any claim). -/
def cellStr : Cell → String
  | Cell.null => "None"
  | Cell.str s => s
  | Cell.num q => toString q

namespace ParserPy

/-- parser._parse_number applied to a raw cell, including the
isinstance(int/float) fast path that returns the number unchanged. -/
def parseNumberCell : Cell → Option ℚ
  | Cell.num q => some q
  | c => _parse_number (cellStr c)

/-- parser._parse_date_value applied to a raw cell. -/
def parseDateCell : Cell → Option PDate
  | c => _parse_date_value (cellStr c)

/-- The per-field conversion of parser._extract_record_from_row: usage and
cost go through _parse_number, date through _parse_date_value, anything else
becomes the stripped text. -/
def convertField (std : String) (v : Cell) : RVal :=
  if std = "usage" ∨ std = "cost" then RVal.num (parseNumberCell v)
  else if std = "date" then RVal.date (parseDateCell v)
  else RVal.str (pyStrip (cellStr v))

/-- One iteration of the column_map loop of parser._extract_record_from_row:
skip the field when the cell is missing, None or the empty string, otherwise
store the converted value under the standardized name. -/
def extractStep (row : List (String × Cell)) (r : List (String × RVal))
    (p : String × String) : List (String × RVal) :=
  match lookupAssoc row p.1 with
  | none => r
  | some Cell.null => r
  | some (Cell.str s) => if s = "" then r else setAssoc r p.2 (convertField p.2 (Cell.str s))
  | some (Cell.num q) => setAssoc r p.2 (convertField p.2 (Cell.num q))

/-- Reads record[k] as the Python code does where it knows the value is text
(supplier and unit when passed to _infer_category). -/
def getStrVal (m : List (String × RVal)) (k : String) : String :=
  match lookupAssoc m k with
  | some (RVal.str s) => s
  | _ => ""

/-- Embedding of parser._extract_record_from_row: build the standardized
record from the mapped columns, infer the category eagerly when category is
missing but supplier and unit keys are present, and return the record only
when at least one of the usage or cost keys was set. -/
def _extract_record_from_row (row : List (String × Cell))
    (column_map : List (String × String)) : Option (List (String × RVal)) :=
  let r0 := column_map.foldl (extractStep row) []
  let r1 :=
    if hasKey r0 "category" = false ∧ hasKey r0 "supplier" = true ∧ hasKey r0 "unit" = true then
      setAssoc r0 "category"
        (RVal.str (_infer_category (getStrVal r0 "supplier") (getStrVal r0 "unit")))
    else r0
  if hasKey r1 "usage" = true ∨ hasKey r1 "cost" = true then some r1 else none

end ParserPy

/-- A row of the emission_factors reference table (models.emission_factor);
the factor is kg CO2e per unit. -/
structure EmissionFactor where
  category : String
  unit : String
  factor : ℚ
  source : String
  year : ℤ
  region : String
deriving DecidableEq

/-- The data dict handed to calculate_emissions: data.get('category'),
data.get('usage') and data.get('unit') may be absent (None), and
data.get('supplier', '') defaults to the empty string. A usage stored as None
by the parser and an absent usage key both reach the calculator as None. -/
structure EntryData where
  category : Option String
  usage : Option ℚ
  unit : Option String
  supplier : String
deriving DecidableEq

/-- The result dict of calculate_emissions. -/
structure CalcResult where
  category : String
  scope : ℕ
  co2e : ℚ
  emission_factor : ℚ
  factor_source : String
deriving DecidableEq

/-- Round to the nearest integer with ties to even, the behaviour of Python's
round builtin on the exact rational model of floats. -/
def roundHalfEven (x : ℚ) : ℤ :=
  let f : ℤ := ⌊x⌋
  if x - f < mkRat 1 2 then f
  else if mkRat 1 2 < x - f then f + 1
  else if f % 2 = 0 then f else f + 1

/-- Python round(x, 3): scale by 1000, round half to even, scale back. -/
def round3 (x : ℚ) : ℚ := mkRat (roundHalfEven (x * 1000)) 1000

namespace CalculatorPy

/-- Embedding of calculator._infer_category(unit, supplier). String literals
are embedded byte-for-byte from the source file, which stores its non-ASCII
literals double-encoded ("mÂ³", "gasÃ³leo", "elÃ©ctrica", "â‚¬"). -/
def _infer_category (unit supplier : String) : Option String :=
  let u := pyStrip (pyLower unit)
  let s := (pyLower supplier).data
  if u = "kwh" ∨ u = "mwh" then some "electricity"
  else if ["endesa", "iberdrola", "naturgy", "elÃ©ctrica", "electric"].any
      (fun b => containsSub b.data s) then some "electricity"
  else if u = "m3" ∨ u = "mÂ³" then some "natural_gas"
  else if containsSub "gas".data s then some "natural_gas"
  else if u = "l" ∨ u = "litro" ∨ u = "liter" ∨ u = "litros" ∨ u = "liters" then
    if ["diesel", "gasÃ³leo", "gasoil"].any (fun b => containsSub b.data s) then some "diesel"
    else some "petrol"
  else if containsSub "km".data u.data || containsSub "tonne".data u.data then
    some "freight_transport"
  else if u = "eur" ∨ u = "euro" ∨ u = "â‚¬" ∨ u = "usd" ∨ u = "dollar" then
    some "purchased_goods"
  else none

/-- calculator.category_map: ES/variant category names to canonical names. -/
def category_map : List (String × String) := [
  ("electricidad", "electricity"), ("electric", "electricity"), ("energia", "electricity"),
  ("luz", "electricity"), ("gas", "natural_gas"), ("gas_natural", "natural_gas"),
  ("gasnatural", "natural_gas"), ("gasoleo", "diesel"), ("gasÃ³leo", "diesel"),
  ("gasoil", "diesel"), ("gasolina", "petrol"), ("petrol", "petrol"),
  ("transporte", "freight_transport"), ("flete", "freight_transport"),
  ("compras", "purchased_goods"), ("materiales", "purchased_goods")]

/-- Embedding of calculator._normalize_category: falsy category (None or "")
triggers inference from unit and supplier; otherwise lower and strip, accept a
canonical name as is, else look it up in category_map (None when unmapped). -/
def _normalize_category (category : Option String) (unit supplier : String) : Option String :=
  match category with
  | none => _infer_category unit supplier
  | some c =>
    if c = "" then _infer_category unit supplier
    else
      let cl := pyStrip (pyLower c)
      if cl ∈ ["electricity", "natural_gas", "diesel", "petrol",
               "freight_transport", "purchased_goods"] then some cl
      else lookupAssoc category_map cl

/-- calculator.unit_map: unit spelling variants to canonical spellings. -/
def unit_map : List (String × String) := [
  ("kwh", "kWh"), ("mwh", "MWh"), ("m3", "m3"), ("mÂ³", "m3"), ("l", "L"),
  ("litro", "L"), ("litros", "L"), ("liter", "L"), ("liters", "L"),
  ("tonne_km", "tonne_km"), ("eur", "EUR"), ("euro", "EUR"), ("â‚¬", "EUR")]

/-- Embedding of calculator._normalize_unit: lower and strip, then map through
unit_map; unmapped units pass through unchanged. -/
def _normalize_unit (unit : String) : String :=
  (lookupAssoc unit_map (pyStrip (pyLower unit))).getD unit

/-- calculator.scope_map: canonical category to GHG scope. -/
def scope_map : List (String × ℕ) := [
  ("natural_gas", 1), ("diesel", 1), ("petrol", 1), ("electricity", 2),
  ("freight_transport", 3), ("purchased_goods", 3)]

/-- Embedding of calculator._determine_scope: scope_map lookup with default
scope 3. -/
def _determine_scope (category : String) : ℕ :=
  (lookupAssoc scope_map category).getD 3

/-- One step of the order_by(year desc).first() selection: keep the row seen
so far unless the next row carries a strictly later year. -/
def pickLater (acc : Option EmissionFactor) (r : EmissionFactor) : Option EmissionFactor :=
  match acc with
  | none => some r
  | some b => if b.year < r.year then some r else some b

/-- The factor lookup inside calculate_emissions:
db.query(EmissionFactor).filter(category ==, unit ==).order_by(year desc)
.first(), modelled over a table snapshot as: keep the rows matching
(category, unit) and take the first row carrying the maximal year. -/
def queryFactor (db : List EmissionFactor) (category unit : String) : Option EmissionFactor :=
  (db.filter (fun r => decide (r.category = category ∧ r.unit = unit))).foldl pickLater none

/-- Embedding of calculator.calculate_emissions: falsy usage (None or 0) or
falsy unit (None or "") gives None; category resolution via
_normalize_category on the raw unit, then unit normalization, then max-year
factor lookup (None when no row matches); co2e is usage * factor / 1000
rounded to 3 decimals. The try/except wrapper is modelled by totality. -/
def calculate_emissions (data : EntryData) (db : List EmissionFactor) : Option CalcResult :=
  match data.usage, data.unit with
  | some usage, some unit0 =>
    if usage = 0 ∨ unit0 = "" then none
    else
      match _normalize_category data.category unit0 data.supplier with
      | none => none
      | some category =>
        let unit := _normalize_unit unit0
        match queryFactor db category unit with
        | none => none
        | some fr =>
          some { category := category
               , scope := _determine_scope category
               , co2e := round3 (usage * fr.factor / 1000)
               , emission_factor := fr.factor
               , factor_source := fr.source ++ " " ++ toString fr.year }
  | _, _ => none

end CalculatorPy

/-- The regex char class [0-9.,] of the cost amount patterns. -/
def isAmtChar (c : Char) : Bool := c.isDigit || c = '.' || c = ','

namespace ParserPy

/-- Anchored match of the pattern ([0-9.,]+)\s*€ at the start of the input:
maximal amount run, optional whitespace, then the euro sign; yields group 1.
The three char classes are pairwise disjoint, so greedy matching without
backtracking coincides with the regex engine. -/
def matchAmtEuro (cs : List Char) : Option String :=
  let p := cs.span isAmtChar
  if p.1 = [] then none
  else
    match p.2.dropWhile isSpaceChar with
    | '€' :: _ => some (String.mk p.1)
    | _ => none

/-- Anchored match of €\s*([0-9.,]+). -/
def matchEuroAmt : List Char → Option String
  | '€' :: rest =>
    let run := (rest.dropWhile isSpaceChar).takeWhile isAmtChar
    if run = [] then none else some (String.mk run)
  | _ => none

/-- Case-insensitive literal prefix match (re.IGNORECASE), yielding the rest
of the input after the literal. -/
def ciPrefix : List Char → List Char → Option (List Char)
  | [], cs => some cs
  | _ :: _, [] => none
  | l :: ls, c :: cs => if pyLowerChar c = l then ciPrefix ls cs else none

/-- Anchored match of label[:\s]+([0-9.,]+), the label matched
case-insensitively. -/
def matchLabeled (label : List Char) (cs : List Char) : Option String :=
  match ciPrefix label cs with
  | none => none
  | some rest =>
    let p := rest.span (fun c => c = ':' || isSpaceChar c)
    if p.1 = [] then none
    else
      let run := p.2.takeWhile isAmtChar
      if run = [] then none else some (String.mk run)

/-- re.search: try the anchored matcher at every position, leftmost match
wins. -/
def reSearch (m : List Char → Option String) : List Char → Option String
  | [] => m []
  | c :: t =>
    match m (c :: t) with
    | some g => some g
    | none => reSearch m t

/-- The pattern loop of parser._extract_cost_near: for each pattern in order,
search the snippet; on a match parse group 1 and return it when it parses to
a value greater than 0 (if cost and cost greater than 0), otherwise fall
through to the next pattern. -/
def costPatternLoop : List (List Char → Option String) → List Char → Option ℚ
  | [], _ => none
  | p :: ps, s =>
    match reSearch p s with
    | some g =>
      match _parse_number g with
      | some c => if 0 < c then some c else costPatternLoop ps s
      | none => costPatternLoop ps s
    | none => costPatternLoop ps s

/-- The four EUR amount patterns of parser._extract_cost_near, in source
order. -/
def costPatterns : List (List Char → Option String) :=
  [matchAmtEuro, matchEuroAmt, matchLabeled "total".data, matchLabeled "importe".data]

/-- Embedding of parser._extract_cost_near: slice text[start:end] around the
match position with the default window of 200 characters, then run the
pattern loop; None when no pattern yields a positive parsed amount. -/
def _extract_cost_near (text : List Char) (position : ℕ) (window : ℕ := 200) : Option ℚ :=
  let start := position - window
  let stop := min text.length (position + window)
  let snippet := (text.drop start).take (stop - start)
  costPatternLoop costPatterns snippet

end ParserPy

/-! Concrete sanity evaluations of the embedded functions. -/

example : ParserPy._parse_number "1.234,56" = some (mkRat 123456 100) := by decide
example : ParserPy._parse_number "1234.56" = some (mkRat 123456 1) := by decide
example : ParserPy._parse_number "" = none := by decide
example : ParserPy._parse_number "45,20 €" = some (mkRat 452 10) := by decide
example : ParserPy._parse_number "abc" = none := by decide
example : ParserPy._parse_number "3-4" = none := by decide
example : ParserPy._parse_date_value "15/03/2024" = some ⟨2024, 3, 15⟩ := by decide
example : ParserPy._parse_date_value "2024-03-15" = some ⟨2024, 3, 15⟩ := by decide
example : ParserPy._parse_date_value "not-a-date" = none := by decide
example : ParserPy._map_columns ["amount"] = [("amount", "cost")] := by decide
example : ParserPy._map_columns ["fecha", "proveedor", "consumo", "unidad"] =
    [("fecha", "date"), ("proveedor", "supplier"), ("consumo", "usage"), ("unidad", "unit")] := by
  decide
example : ParserPy._extract_record_from_row [("consumo", Cell.str "1500")] [("consumo", "usage")] =
    some [("usage", RVal.num (some (mkRat 1500 1)))] := by decide
example : ParserPy._extract_record_from_row [("usage", Cell.str "abc")] [("usage", "usage")] =
    some [("usage", RVal.num none)] := by decide
example : ParserPy._extract_record_from_row [("proveedor", Cell.str "Endesa")]
    [("proveedor", "supplier")] = none := by decide
example : ParserPy._infer_category "" "MWh" = "purchased_goods" := by decide
example : ParserPy._infer_category "Endesa" "kWh" = "electricity" := by decide
example : CalculatorPy._normalize_unit "kwh" = "kWh" := by decide
example : CalculatorPy._normalize_unit "Foo" = "Foo" := by decide
example : CalculatorPy._normalize_category (some "Electricidad") "x" "" = some "electricity" := by
  decide
example : CalculatorPy._infer_category "MWh" "" = some "electricity" := by decide
example : CalculatorPy._infer_category "xyz" "" = none := by decide
example : CalculatorPy._determine_scope "electricity" = 2 := by decide
example : CalculatorPy._determine_scope "other" = 3 := by decide
example : ParserPy._extract_cost_near "Consumo: 250 m3. Total: 45,20".data 0 =
    some (mkRat 452 10) := by decide
example : ParserPy._extract_cost_near "Importe: 0,00".data 0 = none := by decide
example : ParserPy._extract_cost_near "sin coste".data 0 = none := by decide
example : ParserPy._extract_cost_near "pago 12,50 € total".data 0 = some (mkRat 125 10) := by
  decide

/-! Support lemmas. -/

/-- Rounding an exact integer leaves it unchanged. -/
theorem roundHalfEven_intCast (n : ℤ) : roundHalfEven (n : ℚ) = n := by
  unfold roundHalfEven
  rw [Int.floor_intCast]
  simp only [sub_self]
  rw [if_pos]
  rw [Rat.mkRat_eq_div]
  norm_num

/-- round(x, 3) of a value that is an exact multiple of 1/1000. -/
theorem round3_exact (x : ℚ) (n : ℤ) (h : x * 1000 = (n : ℚ)) : round3 x = mkRat n 1000 := by
  unfold round3
  rw [h, roundHalfEven_intCast]

/-- A successful pickLater fold returns the accumulator or a list element. -/
theorem pickLater_fold_mem :
    ∀ (l : List EmissionFactor) (acc : Option EmissionFactor) (r : EmissionFactor),
      l.foldl CalculatorPy.pickLater acc = some r → acc = some r ∨ r ∈ l := by
  intro l
  induction l with
  | nil => intro acc r h; exact Or.inl h
  | cons x xs ih =>
    intro acc r h
    rcases ih (CalculatorPy.pickLater acc x) r h with h1 | h1
    · cases acc with
      | none =>
        simp [CalculatorPy.pickLater] at h1
        exact Or.inr (by simp [h1])
      | some b =>
        by_cases hy : b.year < x.year
        · simp [CalculatorPy.pickLater, hy] at h1
          exact Or.inr (by simp [h1])
        · simp [CalculatorPy.pickLater, hy] at h1
          exact Or.inl (by simp [h1])
    · exact Or.inr (List.mem_cons_of_mem _ h1)

/-- The row returned by a pickLater fold carries a year at least as late as
the accumulator's and as every list element's. -/
theorem pickLater_fold_ge :
    ∀ (l : List EmissionFactor) (acc : Option EmissionFactor) (r : EmissionFactor),
      l.foldl CalculatorPy.pickLater acc = some r →
      (∀ b, acc = some b → b.year ≤ r.year) ∧ ∀ x ∈ l, x.year ≤ r.year := by
  intro l
  induction l with
  | nil =>
    intro acc r h
    constructor
    · intro b hb
      rw [hb] at h
      simp at h
      simp [h]
    · intro x hx
      exact absurd hx (List.not_mem_nil x)
  | cons y ys ih =>
    intro acc r h
    obtain ⟨ha, hl⟩ := ih (CalculatorPy.pickLater acc y) r h
    have hy : y.year ≤ r.year := by
      cases acc with
      | none => exact ha y rfl
      | some b =>
        by_cases hlt : b.year < y.year
        · exact ha y (by simp [CalculatorPy.pickLater, hlt])
        · have hb : b.year ≤ r.year := ha b (by simp [CalculatorPy.pickLater, hlt])
          exact le_trans (le_of_not_lt hlt) hb
    constructor
    · intro b hb
      cases acc with
      | none => simp at hb
      | some b0 =>
        have hb0 : b0 = b := by simpa using hb
        by_cases hlt : b0.year < y.year
        · rw [← hb0]
          exact le_trans (le_of_lt hlt) hy
        · rw [← hb0]
          exact ha b0 (by simp [CalculatorPy.pickLater, hlt])
    · intro x hx
      rcases List.mem_cons.mp hx with h1 | h1
      · rw [h1]
        exact hy
      · exact hl x h1

/-- Looking up the key just assigned returns the assigned value. -/
theorem lookupAssoc_setAssoc_self {α : Type} (m : List (String × α)) (k : String) (v : α) :
    lookupAssoc (setAssoc m k v) k = some v := by
  induction m with
  | nil => simp [setAssoc, lookupAssoc]
  | cons p rest ih =>
    by_cases hp : p.1 = k
    · simp [setAssoc, lookupAssoc, hp]
    · simp [setAssoc, lookupAssoc, hp, ih]

/-- Assigning one key leaves the lookup of any other key unchanged. -/
theorem lookupAssoc_setAssoc_ne {α : Type} (m : List (String × α)) (k k2 : String) (v : α)
    (hne : k2 ≠ k) : lookupAssoc (setAssoc m k v) k2 = lookupAssoc m k2 := by
  induction m with
  | nil => simp [setAssoc, lookupAssoc, Ne.symm hne]
  | cons p rest ih =>
    by_cases hp : p.1 = k
    · simp [setAssoc, lookupAssoc, hp, Ne.symm hne]
    · simp [setAssoc, lookupAssoc, hp, ih]

/-- Any binding produced by folding mapStep was either present initially or
records, for its field, the first header matching that field's synonyms. -/
theorem mapColumns_aux :
    ∀ (rows : List (String × List String)) (headers : List String)
      (m : List (String × String)) (h f : String),
      lookupAssoc (rows.foldl (ParserPy.mapStep headers) m) h = some f →
      lookupAssoc m h = some f ∨
        ∃ p, p ∈ rows ∧ p.1 = f ∧
          headers.find? (ParserPy.headerMatcher p.2) = some h := by
  intro rows
  induction rows with
  | nil =>
    intro headers m h f hl
    exact Or.inl hl
  | cons q rows ih =>
    intro headers m h f hl
    rw [List.foldl_cons] at hl
    rcases ih headers (ParserPy.mapStep headers m q) h f hl with h1 | h1
    · cases hfind : headers.find? (ParserPy.headerMatcher q.2) with
      | none =>
        left
        simp only [ParserPy.mapStep, hfind] at h1
        exact h1
      | some h0 =>
        simp only [ParserPy.mapStep, hfind] at h1
        by_cases hh : h = h0
        · right
          refine ⟨q, List.mem_cons_self q rows, ?_, by rw [hfind, hh]⟩
          rw [hh, lookupAssoc_setAssoc_self] at h1
          exact Option.some.inj h1
        · left
          rw [lookupAssoc_setAssoc_ne _ _ _ _ hh] at h1
          exact h1
    · right
      obtain ⟨p, hp, h2, h3⟩ := h1
      exact ⟨p, List.mem_cons_of_mem q hp, h2, h3⟩

/-- The cost pattern loop only ever returns a strictly positive value. -/
theorem costPatternLoop_pos :
    ∀ (ps : List (List Char → Option String)) (s : List Char) (c : ℚ),
      ParserPy.costPatternLoop ps s = some c → 0 < c := by
  intro ps
  induction ps with
  | nil =>
    intro s c h
    simp [ParserPy.costPatternLoop] at h
  | cons p ps ih =>
    intro s c h
    unfold ParserPy.costPatternLoop at h
    split at h
    next g heq =>
      split at h
      next v heq2 =>
        split at h
        next hv =>
          injection h with h2
          rw [← h2]
          exact hv
        next hv => exact ih s c h
      next heq2 => exact ih s c h
    next heq => exact ih s c h

/-! Claim theorems. -/

/-- C6: calculate_emissions returns none whenever the entry's usage or unit is
absent ("insufficient data"), and for every entry it either returns a result
record or none — the embedding is total, mirroring the try/except wrapper
that stops any exception of a single entry's calculation. -/
theorem C6_insufficient_data :
    (∀ (d : EntryData) (db : List EmissionFactor),
      d.usage = none ∨ d.unit = none → CalculatorPy.calculate_emissions d db = none) ∧
    (∀ (d : EntryData) (db : List EmissionFactor),
      (∃ r, CalculatorPy.calculate_emissions d db = some r) ∨
        CalculatorPy.calculate_emissions d db = none) := by
  constructor
  · intro d db h
    cases h with
    | inl h1 => cases h2 : d.unit <;> simp [CalculatorPy.calculate_emissions, h1, h2]
    | inr h1 => cases h2 : d.usage <;> simp [CalculatorPy.calculate_emissions, h1, h2]
  · intro d db
    cases h : CalculatorPy.calculate_emissions d db with
    | none => exact Or.inr rfl
    | some r => exact Or.inl ⟨r, rfl⟩

/-- Witness for C6: an entry with a missing usage is dropped even though its
unit, category and a matching factor row are available. -/
theorem C6_insufficient_data_witness :
    CalculatorPy.calculate_emissions ⟨some "electricity", none, some "kWh", "Endesa"⟩
      [⟨"electricity", "kWh", mkRat 233 1000, "EEA", 2023, "EU"⟩] = none :=
  C6_insufficient_data.1 ⟨some "electricity", none, some "kWh", "Endesa"⟩
    [⟨"electricity", "kWh", mkRat 233 1000, "EEA", 2023, "EU"⟩] (Or.inl rfl)

/-- C8: calculate_emissions is deterministic — its output is a function of
the entry and the factor-table snapshot alone, so identical runs return
identical results. -/
theorem C8_deterministic :
    ∀ (d1 d2 : EntryData) (t1 t2 : List EmissionFactor),
      d1 = d2 → t1 = t2 →
      CalculatorPy.calculate_emissions d1 t1 = CalculatorPy.calculate_emissions d2 t2 := by
  intro d1 d2 t1 t2 h1 h2
  rw [h1, h2]

/-- Witness for C8 at a concrete entry and table. -/
theorem C8_deterministic_witness :
    CalculatorPy.calculate_emissions ⟨some "electricity", some 1000, some "kWh", ""⟩
        [⟨"electricity", "kWh", mkRat 233 1000, "EEA", 2023, "EU"⟩] =
      CalculatorPy.calculate_emissions ⟨some "electricity", some 1000, some "kWh", ""⟩
        [⟨"electricity", "kWh", mkRat 233 1000, "EEA", 2023, "EU"⟩] :=
  C8_deterministic ⟨some "electricity", some 1000, some "kWh", ""⟩
    ⟨some "electricity", some 1000, some "kWh", ""⟩
    [⟨"electricity", "kWh", mkRat 233 1000, "EEA", 2023, "EU"⟩]
    [⟨"electricity", "kWh", mkRat 233 1000, "EEA", 2023, "EU"⟩] rfl rfl

/-- C9: a present usage equal to 0 is falsy in the entry guard, so
calculate_emissions drops the entry exactly as if usage were absent, whatever
the unit, category and factor table provide. -/
theorem C9_zero_usage :
    ∀ (d : EntryData) (db : List EmissionFactor),
      d.usage = some 0 → CalculatorPy.calculate_emissions d db = none := by
  intro d db h
  cases h2 : d.unit <;> simp [CalculatorPy.calculate_emissions, h, h2]

/-- Witness for C9: usage 0 with unit kWh, category electricity and a
matching factor row still yields none. -/
theorem C9_zero_usage_witness :
    CalculatorPy.calculate_emissions ⟨some "electricity", some 0, some "kWh", "Endesa"⟩
      [⟨"electricity", "kWh", mkRat 233 1000, "EEA", 2023, "EU"⟩] = none :=
  C9_zero_usage ⟨some "electricity", some 0, some "kWh", "Endesa"⟩
    [⟨"electricity", "kWh", mkRat 233 1000, "EEA", 2023, "EU"⟩] rfl

/-- Counterexample to C1: a present usage equal to 0 with unit kWh, category
electricity and a matching factor row satisfies the claim's hypotheses (usage
and unit present, resolved category and normalized unit matching a table
row), yet calculate_emissions returns none instead of a record with
co2e = round(0 * 0.233 / 1000, 3) = 0 — the falsy-usage guard rejects it. -/
theorem C1_counterexample :
    CalculatorPy.calculate_emissions ⟨some "electricity", some 0, some "kWh", ""⟩
      [⟨"electricity", "kWh", mkRat 233 1000, "EEA", 2023, "EU"⟩] = none ∧
    CalculatorPy.queryFactor [⟨"electricity", "kWh", mkRat 233 1000, "EEA", 2023, "EU"⟩]
      "electricity" (CalculatorPy._normalize_unit "kWh") =
      some ⟨"electricity", "kWh", mkRat 233 1000, "EEA", 2023, "EU"⟩ ∧
    CalculatorPy._normalize_category (some "electricity") "kWh" "" = some "electricity" :=
  ⟨by decide, by decide, by decide⟩

/-- C1 (amended): whenever usage and unit are present and truthy (usage
nonzero, unit nonempty), the category resolves and the factor lookup selects
a row, calculate_emissions returns the record built from that row whose co2e
is round(usage * factor / 1000, 3) tonnes. -/
theorem C1_co2e_formula :
    ∀ (d : EntryData) (db : List EmissionFactor) (u : ℚ) (un cat : String)
      (fr : EmissionFactor),
      d.usage = some u → ¬ u = 0 → d.unit = some un → ¬ un = "" →
      CalculatorPy._normalize_category d.category un d.supplier = some cat →
      CalculatorPy.queryFactor db cat (CalculatorPy._normalize_unit un) = some fr →
      CalculatorPy.calculate_emissions d db =
        some { category := cat
             , scope := CalculatorPy._determine_scope cat
             , co2e := round3 (u * fr.factor / 1000)
             , emission_factor := fr.factor
             , factor_source := fr.source ++ " " ++ toString fr.year } := by
  intro d db u un cat fr hu hu0 hun hun0 hcat hfr
  simp [CalculatorPy.calculate_emissions, hu, hun, hu0, hun0, hcat, hfr]

/-- Witness for C1 at usage 1000 kWh and factor 0.233 kg/kWh: the co2e is
round(1000 * 0.233 / 1000, 3) = 0.233 tonnes. -/
theorem C1_co2e_formula_witness :
    round3 (1000 * mkRat 233 1000 / 1000) = mkRat 233 1000 ∧
    CalculatorPy.calculate_emissions ⟨some "electricity", some 1000, some "kWh", ""⟩
        [⟨"electricity", "kWh", mkRat 233 1000, "EEA", 2023, "EU"⟩] =
      some ⟨"electricity", 2, round3 (1000 * mkRat 233 1000 / 1000), mkRat 233 1000,
        "EEA 2023"⟩ :=
  ⟨round3_exact _ 233 (by rw [Rat.mkRat_eq_div]; push_cast; ring),
   C1_co2e_formula ⟨some "electricity", some 1000, some "kWh", ""⟩
    [⟨"electricity", "kWh", mkRat 233 1000, "EEA", 2023, "EU"⟩] 1000 "kWh" "electricity"
    ⟨"electricity", "kWh", mkRat 233 1000, "EEA", 2023, "EU"⟩
    rfl (by decide) rfl (by decide) (by decide) (by decide)⟩

/-- C2: a successful factor lookup returns a table row matching the resolved
(category, normalized unit) pair whose year is maximal among all matching
rows, and on the two-row example table (electricity, kWh, EEA, 2022, 0.25)
and (electricity, kWh, EEA, 2023, 0.21) with usage 100 kWh the calculator
selects factor 0.21 and reports factor_source "EEA 2023". -/
theorem C2_max_year_lookup :
    (∀ (db : List EmissionFactor) (c u : String) (r : EmissionFactor),
      CalculatorPy.queryFactor db c u = some r →
      r ∈ db ∧ r.category = c ∧ r.unit = u ∧
        ∀ x ∈ db, x.category = c → x.unit = u → x.year ≤ r.year) ∧
    CalculatorPy.calculate_emissions ⟨some "electricity", some 100, some "kWh", ""⟩
        [⟨"electricity", "kWh", mkRat 25 100, "EEA", 2022, "EU"⟩,
         ⟨"electricity", "kWh", mkRat 21 100, "EEA", 2023, "EU"⟩] =
      some ⟨"electricity", 2, mkRat 21 1000, mkRat 21 100, "EEA 2023"⟩ := by
  constructor
  · intro db c u r h
    unfold CalculatorPy.queryFactor at h
    rcases pickLater_fold_mem _ _ _ h with h1 | h1
    · exact Option.noConfusion h1
    · have h2 := List.mem_filter.mp h1
      have h3 : r.category = c ∧ r.unit = u := of_decide_eq_true h2.2
      refine ⟨h2.1, h3.1, h3.2, ?_⟩
      intro x hx hxc hxu
      exact (pickLater_fold_ge _ _ _ h).2 x
        (List.mem_filter.mpr ⟨hx, decide_eq_true ⟨hxc, hxu⟩⟩)
  · have hq : CalculatorPy.queryFactor
        [⟨"electricity", "kWh", mkRat 25 100, "EEA", 2022, "EU"⟩,
         ⟨"electricity", "kWh", mkRat 21 100, "EEA", 2023, "EU"⟩] "electricity" "kWh" =
        some ⟨"electricity", "kWh", mkRat 21 100, "EEA", 2023, "EU"⟩ := by decide
    have hcat : CalculatorPy._normalize_category (some "electricity") "kWh" "" =
        some "electricity" := by decide
    have hcond : ¬ ((100 : ℚ) = 0 ∨ ("kWh" : String) = "") := by
      push_neg
      exact ⟨by norm_num, by decide⟩
    have hco2e : round3 (100 * mkRat 21 100 / 1000) = mkRat 21 1000 :=
      round3_exact _ 21 (by rw [Rat.mkRat_eq_div]; push_cast; ring)
    have hnu : CalculatorPy._normalize_unit "kWh" = "kWh" := by decide
    simp [CalculatorPy.calculate_emissions, hcond, hcat, hnu, hq, hco2e]
    all_goals decide

/-- C10: every cost value attached by the ±200-character window search is
strictly positive — a candidate amount that fails to parse or parses to a
value not greater than 0 is skipped (the loop falls through to the next
pattern), leaving the cost absent when no pattern yields a positive amount. -/
theorem C10_cost_positive :
    ∀ (text : List Char) (position : ℕ) (c : ℚ),
      ParserPy._extract_cost_near text position = some c → 0 < c := by
  intro text position c h
  unfold ParserPy._extract_cost_near at h
  exact costPatternLoop_pos _ _ _ h

/-- Witness for C10: the window search on a concrete snippet returns the
positive cost 45.20. -/
theorem C10_cost_positive_witness :
    ParserPy._extract_cost_near "Consumo: 250 m3. Total: 45,20".data 0 = some (mkRat 452 10) ∧
    (0 : ℚ) < mkRat 452 10 :=
  ⟨by decide,
   C10_cost_positive ("Consumo: 250 m3. Total: 45,20".data) 0 (mkRat 452 10) (by decide)⟩

/-- Counterexample to C3: the locale parser maps the string "1234.56" to
123456, not to 1234.56 — every dot is stripped as a thousands separator
before the comma-to-dot replacement. -/
theorem C3_counterexample :
    ParserPy._parse_number "1234.56" = some (mkRat 123456 1) ∧
    decide ((mkRat 123456 1 : ℚ) = mkRat 123456 100) = false :=
  ⟨by decide, by decide⟩

/-- C3 (amended): "1.234,56" parses to 1234.56 and the empty string to none
as claimed, but the dot-decimal string "1234.56" parses to 123456 because a
dot is always treated as a thousands separator; for every input the parser
returns a value or none (the embedding is total, mirroring the bare except
returning None). -/
theorem C3_locale_number_parsing :
    ParserPy._parse_number "1.234,56" = some (mkRat 123456 100) ∧
    ParserPy._parse_number "1234.56" = some (mkRat 123456 1) ∧
    ParserPy._parse_number "" = none ∧
    ∀ s : String, (ParserPy._parse_number s).isSome ∨ (ParserPy._parse_number s).isNone := by
  refine ⟨by decide, by decide, by decide, ?_⟩
  intro s
  cases ParserPy._parse_number s with
  | none => exact Or.inr rfl
  | some v => exact Or.inl rfl

/-- Counterexample to C4: on supplier "" and unit "MWh" the calculator's
inference returns electricity while the parser's eager inference returns
purchased_goods, so the two inference functions do not agree. -/
theorem C4_counterexample :
    CalculatorPy._infer_category "MWh" "" = some "electricity" ∧
    ParserPy._infer_category "" "MWh" = "purchased_goods" ∧
    decide (some (ParserPy._infer_category "" "MWh") =
      CalculatorPy._infer_category "MWh" "") = false :=
  ⟨by decide, by decide, by decide⟩

/-- C4 (amended): the parser's eager inference and the calculator's inference
are distinct heuristics — they disagree at supplier "" with unit "MWh" — and
the parser's version never returns none: it always yields one of the six
canonical categories, with purchased_goods as its catch-all, whereas the
calculator's returns none when no rule matches. -/
theorem C4_infer_category_divergence :
    decide (some (ParserPy._infer_category "" "MWh") =
      CalculatorPy._infer_category "MWh" "") = false ∧
    ∀ supplier unit : String,
      ParserPy._infer_category supplier unit = "electricity" ∨
      ParserPy._infer_category supplier unit = "natural_gas" ∨
      ParserPy._infer_category supplier unit = "diesel" ∨
      ParserPy._infer_category supplier unit = "petrol" ∨
      ParserPy._infer_category supplier unit = "freight_transport" ∨
      ParserPy._infer_category supplier unit = "purchased_goods" := by
  refine ⟨by decide, ?_⟩
  intro supplier unit
  unfold ParserPy._infer_category
  simp only []
  split_ifs <;> simp

/-- Counterexample to C5: a row whose usage cell holds the unparsable text
"abc" still yields a record, and that record's usage key holds none — the
field is present-but-empty rather than left absent, and the record is
retained although neither a usage nor a cost value was parsed. -/
theorem C5_counterexample :
    ParserPy._extract_record_from_row [("usage", Cell.str "abc")] [("usage", "usage")] =
      some [("usage", RVal.num none)] := by decide

/-- C5 (amended): every record emitted by the structured row extractor has at
least one of the usage or cost keys set — a key is set exactly when the
mapped cell is non-null and non-empty, even if its value fails to parse, in
which case the key holds none — and a row that sets neither key yields no
record. -/
theorem C5_retention_invariant :
    (∀ (row : List (String × Cell)) (cmap : List (String × String))
        (r : List (String × RVal)),
      ParserPy._extract_record_from_row row cmap = some r →
      hasKey r "usage" = true ∨ hasKey r "cost" = true) ∧
    ParserPy._extract_record_from_row [("proveedor", Cell.str "Endesa")]
      [("proveedor", "supplier")] = none := by
  constructor
  · intro row cmap r h
    simp only [ParserPy._extract_record_from_row] at h
    split at h <;> split at h <;>
      first
        | exact Option.noConfusion h
        | (injection h with h2; rw [← h2]; assumption)
  · decide

/-- Witness for C5 (amended) at a concrete parsed row carrying a usage. -/
theorem C5_retention_invariant_witness :
    hasKey [("usage", RVal.num (some (mkRat 1500 1)))] "usage" = true ∨
    hasKey [("usage", RVal.num (some (mkRat 1500 1)))] "cost" = true :=
  C5_retention_invariant.1 [("consumo", Cell.str "1500")] [("consumo", "usage")]
    [("usage", RVal.num (some (mkRat 1500 1)))] (by decide)

/-- Counterexample to C7: "amount" is the only header and is a synonym of
usage, an earlier field than cost, yet the final mapping assigns it to cost —
the cost iteration reassigns the header that had already won the usage
slot. -/
theorem C7_counterexample :
    ParserPy.headerMatcher ((lookupAssoc ParserPy.COLUMN_SYNONYMS "usage").getD [])
      "amount" = true ∧
    ParserPy._map_columns ["amount"] = [("amount", "cost")] ∧
    decide (("cost" : String) = "usage") = false :=
  ⟨by decide, by decide, by decide⟩

/-- C7 (amended): every binding of the final column map sends a header to a
field whose synonym list that header is the first to match (after trimming
and lower-casing), and unmatched headers are absent; but a header that is the
first match for several fields keeps only the last such field in table order:
["amount"] maps to cost, not usage. -/
theorem C7_first_match_mapping :
    (∀ (headers : List String) (h f : String),
      lookupAssoc (ParserPy._map_columns headers) h = some f →
      headers.find?
        (ParserPy.headerMatcher ((lookupAssoc ParserPy.COLUMN_SYNONYMS f).getD [])) =
        some h) ∧
    ParserPy._map_columns ["amount"] = [("amount", "cost")] := by
  constructor
  · intro headers h f hl
    unfold ParserPy._map_columns at hl
    rcases mapColumns_aux ParserPy.COLUMN_SYNONYMS headers [] h f hl with h1 | h1
    · simp [lookupAssoc] at h1
    · obtain ⟨p, hmem, hpf, hfind⟩ := h1
      subst hpf
      have hsyn : lookupAssoc ParserPy.COLUMN_SYNONYMS p.1 = some p.2 := by
        fin_cases hmem <;> decide
      rw [hsyn]
      simpa using hfind
  · decide

/-- Witness for C7 (amended): in the headers ["fecha", "consumo"], the header
assigned to date is the first one matching the date synonyms. -/
theorem C7_first_match_mapping_witness :
    ["fecha", "consumo"].find?
      (ParserPy.headerMatcher ((lookupAssoc ParserPy.COLUMN_SYNONYMS "date").getD [])) =
      some "fecha" :=
  C7_first_match_mapping.1 ["fecha", "consumo"] "fecha" "date" (by decide)

/-- Witness for C2: on the example table the selected 2023 row is a member of
the table, as the general part of C2 requires. -/
theorem C2_max_year_lookup_witness :
    (⟨"electricity", "kWh", mkRat 21 100, "EEA", 2023, "EU"⟩ : EmissionFactor) ∈
      [⟨"electricity", "kWh", mkRat 25 100, "EEA", 2022, "EU"⟩,
       ⟨"electricity", "kWh", mkRat 21 100, "EEA", 2023, "EU"⟩] :=
  (C2_max_year_lookup.1
    [⟨"electricity", "kWh", mkRat 25 100, "EEA", 2022, "EU"⟩,
     ⟨"electricity", "kWh", mkRat 21 100, "EEA", 2023, "EU"⟩] "electricity" "kWh"
    ⟨"electricity", "kWh", mkRat 21 100, "EEA", 2023, "EU"⟩ (by decide)).1

end Luma
